import Mathlib

/-!
# REST gateway (`src/server.js`): request handlers over three stores

Every route of `server.js` is an `async (req, res) => ...` arrow function that
performs at most a handful of awaited driver calls inside a `try`/`catch`, logs,
and sends one response.  A handler is embedded as a function from the driver
outcomes (`Env`) and the request (`Request`) to the ordered list of observable
effects (`Effect`) it performs: driver calls with their arguments, audit-log
calls, console output and responses.

Driver outcomes are inputs: each awaited promise either resolves to a value or
rejects with an error (`Except JsError _`).  In every handler each distinct
driver call is awaited at most once, so an outcome that is a function of the call
and its arguments loses no generality.
-/

namespace ApiAws

/-! ## JavaScript values -/

/-- JavaScript number: the value denoted by an IEEE-754 double (every finite double
denotes a rational), with the special values kept apart. -/
inductive JsNum where
  | nan
  | posInf
  | negInf
  | negZero
  | fin (q : ℚ)

/-- JavaScript value as it occurs in parsed JSON bodies, multipart text fields and
response bodies.  An object is its list of own properties; the first binding of a key
is the one read. -/
inductive JsVal where
  | undefined
  | null
  | bool (b : Bool)
  | num (x : JsNum)
  | str (s : String)
  | arr (items : List JsVal)
  | obj (fields : List (String × JsVal))

/-- Own-property list of an object. -/
abbrev JsObj := List (String × JsVal)

/-- ToBoolean on numbers: `+0`, `-0` and `NaN` are falsy. -/
def JsNum.truthy : JsNum → Bool
  | .nan => false
  | .posInf => true
  | .negInf => true
  | .negZero => false
  | .fin q => decide (q ≠ 0)

/-- ToBoolean, the test performed by `!x` and `x || y`: `undefined`, `null`, `false`,
`0`, `-0`, `NaN` and the empty string are falsy, everything else (all objects and
arrays included) is truthy. -/
def JsVal.truthy : JsVal → Bool
  | .undefined => false
  | .null => false
  | .bool b => b
  | .num x => x.truthy
  | .str s => decide (s ≠ "")
  | .arr _ => true
  | .obj _ => true

/-- Property read `o.key` on an object: the property's value, `undefined` when the
object has no such property. -/
def JsObj.get (o : JsObj) (key : String) : JsVal :=
  (o.lookup key).getD .undefined

/-- The operator `a || b`: `a` when it is truthy, otherwise `b`. -/
def JsVal.or (a b : JsVal) : JsVal :=
  if a.truthy then a else b

/-- Error object thrown by a driver: `error.name`, `error.message` and the optional
`error.code` (the AWS SDK sets it, e.g. to `NotFound`). -/
structure JsError where
  name : String
  message : String
  code : Option String

/-- String conversion of an error, `'' + error` (Error.prototype.toString). -/
def JsError.toStr (e : JsError) : String :=
  if e.message = "" then e.name
  else if e.name = "" then e.message
  else e.name ++ ": " ++ e.message

/-! ## Requests and responses -/

/-- Route parameters `req.params`; Express delivers them as strings. -/
structure Params where
  id : String
  bucketName : String
  fileName : String

/-- File parsed by `upload.single('file')` with memory storage: `req.file`. -/
structure UploadedFile where
  originalname : String
  buffer : List Nat
  mimetype : String

/-- Request as the handlers see it.  `body` is `req.body`, which the body parsers
(`express.json()`, multer) always leave as an object, an empty one when the request
carries no fields; `file` is `req.file`, absent when no file part was sent. -/
structure Request where
  params : Params
  body : JsObj
  file : Option UploadedFile

/-- What a response carries: `res.json(v)` or `res.send(text)`. -/
inductive Payload where
  | json (v : JsVal)
  | text (s : String)

/-- One `res.status(code).json(..)` or `res.status(code).send(..)` chain. -/
structure Response where
  status : Nat
  payload : Payload

/-! ## Driver calls and their outcomes -/

/-- Result header of an INSERT, UPDATE or DELETE run through `pool.query`. -/
structure ResultSetHeader where
  insertId : Nat
  affectedRows : Nat

/-- Data of a finished `s3.upload`: `data.Location` and `data.ETag`. -/
structure UploadData where
  Location : String
  ETag : String

/-- Driver call awaited (or, for `release`, invoked) by a handler, with its arguments. -/
inductive StoreCall where
  | mongooseConnect
  | userFindOne
  | userSave (nome email : JsVal)
  | userFind
  | userFindById (id : String)
  | userFindByIdAndUpdate (id : String) (update : JsObj)
  | userDeleteOne (id : String)
  | listBuckets
  | listObjectsV2 (bucket : String)
  | upload (bucket : String) (key : JsVal) (body : List Nat) (contentType : String)
  | headObject (bucket key : String)
  | deleteObject (bucket key : String)
  | getConnection
  | execute (sql : String)
  | release
  | query (sql : String) (values : List JsVal)

/-- Outcomes of the driver calls, as the environment decides them.  A document query
resolves to a document or to `null` (`none`); `deleteOne` resolves to its
`deletedCount`; `pool.query` resolves to a row array for a SELECT (`queryRows`) and
to a result header for INSERT, UPDATE and DELETE (`queryHeader`). -/
structure Env where
  readyState : Nat
  mongooseConnect : Except JsError Unit
  userFindOne : Except JsError (Option JsObj)
  userSave : JsVal → JsVal → Except JsError JsObj
  userFind : Except JsError (List JsVal)
  userFindById : String → Except JsError (Option JsObj)
  userFindByIdAndUpdate : String → JsObj → Except JsError (Option JsObj)
  userDeleteOne : String → Except JsError Nat
  listBuckets : Except JsError JsVal
  listObjectsV2 : String → Except JsError JsVal
  upload : String → JsVal → List Nat → String → Except JsError UploadData
  headObject : String → String → Except JsError Unit
  deleteObject : String → String → Except JsError Unit
  getConnection : Except JsError Unit
  execute : String → Except JsError (List JsVal)
  queryRows : String → List JsVal → Except JsError (List JsVal)
  queryHeader : String → List JsVal → Except JsError ResultSetHeader

/-- Observable effect of a handler. -/
inductive Effect where
  | call (c : StoreCall)
  | logInfo (message : String)
  | logError (message : String) (error : JsError)
  | consoleLog (message : String)
  | consoleError (message : String)
  | respond (r : Response)

/-- Driver calls of a run, in order. -/
def storeCalls : List Effect → List StoreCall
  | [] => []
  | .call c :: rest => c :: storeCalls rest
  | _ :: rest => storeCalls rest

/-- Responses sent by a run, in order. -/
def responses : List Effect → List Response
  | [] => []
  | .respond r :: rest => r :: responses rest
  | _ :: rest => responses rest

/-- Status codes of the responses sent by a run. -/
def statuses (t : List Effect) : List Nat :=
  (responses t).map Response.status

/-- Body of an error response with the underlying message: `error` and `message`. -/
def errorMessageBody (text : String) (error : JsError) : Payload :=
  .json (.obj [("error", .str text), ("message", .str error.message)])

/-- Body of an error response of the bucket routes: `error` and `details`. -/
def errorDetailsBody (text : String) (error : JsError) : Payload :=
  .json (.obj [("error", .str text), ("details", .str error.message)])

/-- Body carrying only an `error` field. -/
def errorBody (text : String) : Payload :=
  .json (.obj [("error", .str text)])

/-- Modelled from the spec: `logInfo` of the audit logger `./logger`, which is not
among the sources.  The spec describes the logger as a pure side-effect sink on which
no control flow depends, so the call is recorded as an effect and always returns.  The
request and the optional data argument are not recorded. -/
abbrev logInfo (message : String) : Effect := .logInfo message

/-- Modelled from the spec: `logError` of the audit logger `./logger`, a pure
side-effect sink like `logInfo`; the message and the error passed are recorded. -/
abbrev logError (message : String) (error : JsError) : Effect := .logError message error

/-! ## Handlers of the document store (`User`) -/

/-- Handler `app.get('/mongodb/testar-conexao')`. -/
def mongodbTestarConexao (env : Env) (_req : Request) : List Effect :=
  let fail (done : List Effect) (error : JsError) : List Effect :=
    done ++ [logError ("Erro ao conectar no MongoDb: " ++ error.toStr) error,
      .respond ⟨500, errorMessageBody "Erro na conexão com o MongoDB" error⟩]
  let query (done : List Effect) : List Effect :=
    match env.userFindOne with
    | .error error => fail (done ++ [.call .userFindOne]) error
    | .ok user =>
      done ++ [.call .userFindOne, logInfo "Conexão com o MongoDB efetuada com sucesso",
        if user.isSome then
          .respond ⟨200, .text "Conexão com o MongoDB bem-sucedida e usuário encontrado!"⟩
        else
          .respond ⟨200, .text "Conexão com o MongoDB bem-sucedida, mas nenhum usuário encontrado."⟩]
  if env.readyState ≠ 1 then
    match env.mongooseConnect with
    | .error error => fail [.call .mongooseConnect] error
    | .ok () => query [.call .mongooseConnect]
  else
    query []

/-- Handler `app.post('/usuarios')`. -/
def postUsuarios (env : Env) (req : Request) : List Effect :=
  let nome := req.body.get "nome"
  let email := req.body.get "email"
  if !nome.truthy || !email.truthy then
    [.respond ⟨400, errorBody "Nome e email são obrigatórios"⟩]
  else
    match env.userSave nome email with
    | .ok user =>
      [.call (.userSave nome email), logInfo "Usuário criado",
        .respond ⟨201, .json (.obj user)⟩]
    | .error error =>
      [.call (.userSave nome email), logError "Erro ao criar usuário" error,
        .respond ⟨500, errorMessageBody "Erro ao criar usuário" error⟩]

/-- Handler `app.get('/usuarios')`. -/
def getUsuarios (env : Env) (_req : Request) : List Effect :=
  match env.userFind with
  | .ok users =>
    [.call .userFind, logInfo "Usuários encontrados", .respond ⟨200, .json (.arr users)⟩]
  | .error error =>
    [.call .userFind, logError "Erro ao buscar usuários" error,
      .respond ⟨500, errorMessageBody "Erro ao buscar usuários" error⟩]

/-- Handler `app.get('/usuarios/:id')`. -/
def getUsuarioById (env : Env) (req : Request) : List Effect :=
  match env.userFindById req.params.id with
  | .ok none =>
    [.call (.userFindById req.params.id), .respond ⟨404, errorBody "Usuário não encontrado"⟩]
  | .ok (some user) =>
    [.call (.userFindById req.params.id), logInfo "Usuário encontrado",
      .respond ⟨200, .json (.obj user)⟩]
  | .error error =>
    [.call (.userFindById req.params.id), logError "Erro ao buscar usuário" error,
      .respond ⟨500, errorMessageBody "Erro ao buscar usuário" error⟩]

/-- Handler `app.put('/usuarios/:id')`. -/
def putUsuario (env : Env) (req : Request) : List Effect :=
  match env.userFindByIdAndUpdate req.params.id req.body with
  | .ok none =>
    [.call (.userFindByIdAndUpdate req.params.id req.body),
      .respond ⟨404, errorBody "Usuário não encontrado"⟩]
  | .ok (some user) =>
    [.call (.userFindByIdAndUpdate req.params.id req.body), logInfo "Usuário atualizado",
      .respond ⟨200, .json (.obj user)⟩]
  | .error error =>
    [.call (.userFindByIdAndUpdate req.params.id req.body),
      logError "Erro ao atualizar usuário" error,
      .respond ⟨500, errorMessageBody "Erro ao atualizar usuário" error⟩]

/-- Handler `app.delete('/usuarios/:id')`. -/
def deleteUsuario (env : Env) (req : Request) : List Effect :=
  match env.userDeleteOne req.params.id with
  | .ok deletedCount =>
    if deletedCount = 0 then
      [.call (.userDeleteOne req.params.id), .respond ⟨404, errorBody "Usuário não encontrado"⟩]
    else
      [.call (.userDeleteOne req.params.id), logInfo "Usuário removido",
        .respond ⟨200, .json (.obj [("message", .str "Usuário removido com sucesso")])⟩]
  | .error error =>
    [.call (.userDeleteOne req.params.id), logError "Erro ao remover usuário" error,
      .respond ⟨500, errorMessageBody "Erro ao remover usuário" error⟩]

/-! ## Handlers of the object store (S3) -/

/-- Handler `app.get('/buckets')`. -/
def getBuckets (env : Env) (_req : Request) : List Effect :=
  match env.listBuckets with
  | .ok buckets =>
    [.call .listBuckets, logInfo "Buckets encontrados", .respond ⟨200, .json buckets⟩]
  | .error error =>
    [.call .listBuckets, logError "Erro ao buscar buckets" error,
      .respond ⟨500, errorDetailsBody "Erro ao listar buckets" error⟩]

/-- Handler `app.get('/buckets/:bucketName')`. -/
def getBucketObjects (env : Env) (req : Request) : List Effect :=
  let bucketName := req.params.bucketName
  match env.listObjectsV2 bucketName with
  | .ok contents =>
    [.call (.listObjectsV2 bucketName), logInfo "Objetos encontrados",
      .respond ⟨200, .json contents⟩]
  | .error error =>
    [.call (.listObjectsV2 bucketName), logError "Erro ao buscar objetos" error,
      .respond ⟨500, errorDetailsBody "Erro ao listar objetos do bucket" error⟩]

/-- Handler `app.post('/buckets/:bucketName/upload')`, run after `upload.single('file')`. -/
def postBucketUpload (env : Env) (req : Request) : List Effect :=
  let bucketName := req.params.bucketName
  match req.file with
  | none => [.respond ⟨400, errorBody "Nenhum arquivo fornecido"⟩]
  | some file =>
    let fileName := (req.body.get "fileName").or (.str file.originalname)
    match env.upload bucketName fileName file.buffer file.mimetype with
    | .ok data =>
      [.call (.upload bucketName fileName file.buffer file.mimetype),
        logInfo "Upload efetuado com sucesso",
        .respond ⟨200, .json (.obj [("message", .str "Arquivo enviado com sucesso"),
          ("fileName", fileName), ("location", .str data.Location),
          ("etag", .str data.ETag)])⟩]
    | .error error =>
      [.call (.upload bucketName fileName file.buffer file.mimetype),
        logError "Erro ao efetuar upload" error,
        .respond ⟨500, errorDetailsBody "Erro ao fazer upload do arquivo" error⟩]

/-- Handler `app.delete('/buckets/:bucketName/file/:fileName')`: the inner `try` probes
with `headObject`; only an error whose `code` is `NotFound` is answered there, any
other is rethrown to the outer `catch`. -/
def deleteBucketFile (env : Env) (req : Request) : List Effect :=
  let bucketName := req.params.bucketName
  let fileName := req.params.fileName
  let fail (done : List Effect) (error : JsError) : List Effect :=
    done ++ [logError "Erro ao remover objeto" error,
      .respond ⟨500, errorDetailsBody "Erro ao deletar arquivo" error⟩]
  match env.headObject bucketName fileName with
  | .error headError =>
    if headError.code = some "NotFound" then
      [.call (.headObject bucketName fileName),
        .respond ⟨404, .json (.obj [("error", .str "Arquivo não encontrado"),
          ("fileName", .str fileName), ("bucketName", .str bucketName)])⟩]
    else
      fail [.call (.headObject bucketName fileName)] headError
  | .ok () =>
    match env.deleteObject bucketName fileName with
    | .error error =>
      fail [.call (.headObject bucketName fileName), .call (.deleteObject bucketName fileName)]
        error
    | .ok () =>
      [.call (.headObject bucketName fileName), .call (.deleteObject bucketName fileName),
        logInfo "Objeto removido com sucesso",
        .respond ⟨200, .json (.obj [("message", .str "Arquivo deletado com sucesso"),
          ("fileName", .str fileName), ("bucketName", .str bucketName)])⟩]

/-! ## Handlers of the relational store (`produto`) -/

/-- Startup diagnostic `testMySQLConnection`. -/
def testMySQLConnection (env : Env) : List Effect :=
  match env.getConnection with
  | .ok () =>
    [.call .getConnection, .consoleLog "✅ MySQL conectado com sucesso", .call .release]
  | .error error =>
    [.call .getConnection, .consoleError ("❌ Erro ao conectar ao MySQL: " ++ error.message)]

/-- Handler `app.get('/mysql/testar-conexao')`. -/
def mysqlTestarConexao (env : Env) (_req : Request) : List Effect :=
  let fail (done : List Effect) (error : JsError) : List Effect :=
    done ++ [logError "Erro ao testar conexão MySQL" error,
      .respond ⟨500, errorMessageBody "Erro na conexão MySQL" error⟩]
  match env.getConnection with
  | .error error => fail [.call .getConnection] error
  | .ok () =>
    match env.execute "SELECT 1 as test" with
    | .error error => fail [.call .getConnection, .call (.execute "SELECT 1 as test")] error
    | .ok rows =>
      [.call .getConnection, .call (.execute "SELECT 1 as test"), .call .release,
        logInfo "Conexão MySQL testada com sucesso",
        .respond ⟨200, .json (.obj [("message", .str "Conexão MySQL bem-sucedida"),
          ("test", rows.headD .undefined)])⟩]

/-- Handler `app.get('/produtos')`. -/
def getProdutos (env : Env) (_req : Request) : List Effect :=
  match env.queryRows "SELECT * FROM produto" [] with
  | .ok rows =>
    [.call (.query "SELECT * FROM produto" []), logInfo "Produtos listados com sucesso",
      .respond ⟨200, .json (.arr rows)⟩]
  | .error error =>
    [.call (.query "SELECT * FROM produto" []), logError "Erro ao listar produtos" error,
      .respond ⟨500, errorMessageBody "Erro ao listar produtos" error⟩]

/-- Handler `app.post('/produtos')`. -/
def postProdutos (env : Env) (req : Request) : List Effect :=
  let nome := req.body.get "nome"
  let descricao := req.body.get "descricao"
  let preco := req.body.get "preco"
  if !nome.truthy || !descricao.truthy || !preco.truthy then
    [.respond ⟨400, errorBody "Nome, descrição e preço são obrigatórios"⟩]
  else
    match env.queryHeader "INSERT INTO produto (Nome, Descricao, Preco) VALUES (?, ?, ?)"
        [nome, descricao, preco] with
    | .ok result =>
      [.call (.query "INSERT INTO produto (Nome, Descricao, Preco) VALUES (?, ?, ?)"
          [nome, descricao, preco]),
        logInfo "Produto criado com sucesso",
        .respond ⟨201, .json (.obj [("id", .num (.fin result.insertId)), ("nome", nome),
          ("descricao", descricao), ("preco", preco)])⟩]
    | .error error =>
      [.call (.query "INSERT INTO produto (Nome, Descricao, Preco) VALUES (?, ?, ?)"
          [nome, descricao, preco]),
        logError "Erro ao criar produto" error,
        .respond ⟨500, errorMessageBody "Erro ao criar produto" error⟩]

/-- Handler `app.get('/produtos/:id')`. -/
def getProdutoById (env : Env) (req : Request) : List Effect :=
  match env.queryRows "SELECT * FROM produto WHERE Id = ?" [.str req.params.id] with
  | .ok rows =>
    if rows.length = 0 then
      [.call (.query "SELECT * FROM produto WHERE Id = ?" [.str req.params.id]),
        .respond ⟨404, errorBody "Produto não encontrado"⟩]
    else
      [.call (.query "SELECT * FROM produto WHERE Id = ?" [.str req.params.id]),
        logInfo "Produto encontrado",
        .respond ⟨200, .json (rows.headD .undefined)⟩]
  | .error error =>
    [.call (.query "SELECT * FROM produto WHERE Id = ?" [.str req.params.id]),
      logError "Erro ao buscar produto" error,
      .respond ⟨500, errorMessageBody "Erro ao buscar produto" error⟩]

/-- Handler `app.put('/produtos/:id')`. -/
def putProduto (env : Env) (req : Request) : List Effect :=
  let nome := req.body.get "nome"
  let descricao := req.body.get "descricao"
  let preco := req.body.get "preco"
  match env.queryHeader "UPDATE produto SET Nome = ?, Descricao = ?, Preco = ? WHERE Id = ?"
      [nome, descricao, preco, .str req.params.id] with
  | .ok result =>
    if result.affectedRows = 0 then
      [.call (.query "UPDATE produto SET Nome = ?, Descricao = ?, Preco = ? WHERE Id = ?"
          [nome, descricao, preco, .str req.params.id]),
        .respond ⟨404, errorBody "Produto não encontrado"⟩]
    else
      [.call (.query "UPDATE produto SET Nome = ?, Descricao = ?, Preco = ? WHERE Id = ?"
          [nome, descricao, preco, .str req.params.id]),
        logInfo "Produto atualizado",
        .respond ⟨200, .json (.obj [("id", .str req.params.id), ("nome", nome),
          ("descricao", descricao), ("preco", preco)])⟩]
  | .error error =>
    [.call (.query "UPDATE produto SET Nome = ?, Descricao = ?, Preco = ? WHERE Id = ?"
        [nome, descricao, preco, .str req.params.id]),
      logError "Erro ao atualizar produto" error,
      .respond ⟨500, errorMessageBody "Erro ao atualizar produto" error⟩]

/-- Handler `app.delete('/produtos/:id')`. -/
def deleteProduto (env : Env) (req : Request) : List Effect :=
  match env.queryHeader "DELETE FROM produto WHERE Id = ?" [.str req.params.id] with
  | .ok result =>
    if result.affectedRows = 0 then
      [.call (.query "DELETE FROM produto WHERE Id = ?" [.str req.params.id]),
        .respond ⟨404, errorBody "Produto não encontrado"⟩]
    else
      [.call (.query "DELETE FROM produto WHERE Id = ?" [.str req.params.id]),
        logInfo "Produto removido",
        .respond ⟨200, .json (.obj [("message", .str "Produto removido com sucesso")])⟩]
  | .error error =>
    [.call (.query "DELETE FROM produto WHERE Id = ?" [.str req.params.id]),
      logError "Erro ao remover produto" error,
      .respond ⟨500, errorMessageBody "Erro ao remover produto" error⟩]

/-! ## Sample environments and requests -/

/-- Environment in which every driver call succeeds: a saved user gets the identifier
`u1`, lookups find nothing, and writes report one inserted or affected row. -/
def okEnv : Env where
  readyState := 1
  mongooseConnect := .ok ()
  userFindOne := .ok none
  userSave := fun nome email => .ok [("_id", .str "u1"), ("nome", nome), ("email", email)]
  userFind := .ok []
  userFindById := fun _ => .ok none
  userFindByIdAndUpdate := fun _ _ => .ok none
  userDeleteOne := fun _ => .ok 0
  listBuckets := .ok (.arr [])
  listObjectsV2 := fun _ => .ok (.arr [])
  upload := fun bucket _ _ _ => .ok ⟨"https://s3.example/" ++ bucket, "etag-1"⟩
  headObject := fun _ _ => .ok ()
  deleteObject := fun _ _ => .ok ()
  getConnection := .ok ()
  execute := fun _ => .ok [.obj [("test", .num (.fin 1))]]
  queryRows := fun _ _ => .ok []
  queryHeader := fun _ _ => .ok ⟨7, 1⟩

/-- Environment in which every driver call rejects with the given error. -/
def failingEnv (error : JsError) : Env where
  readyState := 0
  mongooseConnect := .error error
  userFindOne := .error error
  userSave := fun _ _ => .error error
  userFind := .error error
  userFindById := fun _ => .error error
  userFindByIdAndUpdate := fun _ _ => .error error
  userDeleteOne := fun _ => .error error
  listBuckets := .error error
  listObjectsV2 := fun _ => .error error
  upload := fun _ _ _ _ => .error error
  headObject := fun _ _ => .error error
  deleteObject := fun _ _ => .error error
  getConnection := .error error
  execute := fun _ => .error error
  queryRows := fun _ _ => .error error
  queryHeader := fun _ _ => .error error

/-- Route parameters used by the sample requests. -/
def sampleParams : Params := ⟨"42", "fotos", "gato.png"⟩

/-- Request with the given JSON body and no file. -/
def jsonRequest (body : JsObj) : Request := ⟨sampleParams, body, none⟩

/-! ## Route families -/

/-- Error carried by a rejected driver call, if it was rejected. -/
def errorOf {α : Type} : Except JsError α → Option JsError
  | .ok _ => none
  | .error e => some e

/-- What a by-identifier call tells its handler: `some true` when it resolved and the
result shows a matching record, `some false` when it resolved and shows none, `none`
when it was rejected. -/
def reported {α : Type} (isMatch : α → Bool) : Except JsError α → Option Bool
  | .ok a => some (isMatch a)
  | .error _ => none

/-- The read, update and delete routes by identifier of both resources. -/
inductive ByIdRoute where
  | usuarioGet
  | usuarioPut
  | usuarioDelete
  | produtoGet
  | produtoPut
  | produtoDelete

/-- Handler registered for a by-identifier route. -/
def ByIdRoute.handler : ByIdRoute → Env → Request → List Effect
  | .usuarioGet => getUsuarioById
  | .usuarioPut => putUsuario
  | .usuarioDelete => deleteUsuario
  | .produtoGet => getProdutoById
  | .produtoPut => putProduto
  | .produtoDelete => deleteProduto

/-- Whether the store reports a record matching the identifier of the request: no match
is a `null` document (`findById`, `findByIdAndUpdate`), a zero `deletedCount`, an empty
row set, or zero `affectedRows`. -/
def ByIdRoute.matched : ByIdRoute → Env → Request → Option Bool
  | .usuarioGet, env, req => reported Option.isSome (env.userFindById req.params.id)
  | .usuarioPut, env, req =>
    reported Option.isSome (env.userFindByIdAndUpdate req.params.id req.body)
  | .usuarioDelete, env, req =>
    reported (fun deletedCount => decide (deletedCount ≠ 0)) (env.userDeleteOne req.params.id)
  | .produtoGet, env, req =>
    reported (fun rows => !rows.isEmpty)
      (env.queryRows "SELECT * FROM produto WHERE Id = ?" [.str req.params.id])
  | .produtoPut, env, req =>
    reported (fun result => decide (result.affectedRows ≠ 0))
      (env.queryHeader "UPDATE produto SET Nome = ?, Descricao = ?, Preco = ? WHERE Id = ?"
        [req.body.get "nome", req.body.get "descricao", req.body.get "preco",
          .str req.params.id])
  | .produtoDelete, env, req =>
    reported (fun result => decide (result.affectedRows ≠ 0))
      (env.queryHeader "DELETE FROM produto WHERE Id = ?" [.str req.params.id])

/-- The five routes of the `User` resource. -/
inductive UserRoute where
  | create
  | list
  | read
  | update
  | delete

/-- Handler registered for a `User` route. -/
def UserRoute.handler : UserRoute → Env → Request → List Effect
  | .create => postUsuarios
  | .list => getUsuarios
  | .read => getUsuarioById
  | .update => putUsuario
  | .delete => deleteUsuario

/-- Text of the `error` field in the `catch` block of a `User` route. -/
def UserRoute.errorText : UserRoute → String
  | .create => "Erro ao criar usuário"
  | .list => "Erro ao buscar usuários"
  | .read => "Erro ao buscar usuário"
  | .update => "Erro ao atualizar usuário"
  | .delete => "Erro ao remover usuário"

/-- Error with which the environment rejects a call on the `User` model, if it does. -/
def Env.userCallError (env : Env) : StoreCall → Option JsError
  | .userSave nome email => errorOf (env.userSave nome email)
  | .userFind => errorOf env.userFind
  | .userFindById id => errorOf (env.userFindById id)
  | .userFindByIdAndUpdate id update => errorOf (env.userFindByIdAndUpdate id update)
  | .userDeleteOne id => errorOf (env.userDeleteOne id)
  | _ => none

/-- Driver call that the handler of a `User` route awaits for a request (for `create`,
once the request has passed the field check). -/
def UserRoute.call : UserRoute → Request → StoreCall
  | .create, req => .userSave (req.body.get "nome") (req.body.get "email")
  | .list, _ => .userFind
  | .read, req => .userFindById req.params.id
  | .update, req => .userFindByIdAndUpdate req.params.id req.body
  | .delete, req => .userDeleteOne req.params.id

/-- Routes that run SQL: the relational health probe and the five `produto` routes. -/
inductive SqlRoute where
  | testarConexao
  | list
  | create
  | read
  | update
  | delete

/-- Handler registered for a route that runs SQL. -/
def SqlRoute.handler : SqlRoute → Env → Request → List Effect
  | .testarConexao => mysqlTestarConexao
  | .list => getProdutos
  | .create => postProdutos
  | .read => getProdutoById
  | .update => putProduto
  | .delete => deleteProduto

/-- Statement text written in the source of a route that runs SQL. -/
def SqlRoute.statement : SqlRoute → String
  | .testarConexao => "SELECT 1 as test"
  | .list => "SELECT * FROM produto"
  | .create => "INSERT INTO produto (Nome, Descricao, Preco) VALUES (?, ?, ?)"
  | .read => "SELECT * FROM produto WHERE Id = ?"
  | .update => "UPDATE produto SET Nome = ?, Descricao = ?, Preco = ? WHERE Id = ?"
  | .delete => "DELETE FROM produto WHERE Id = ?"

/-- Statement text of a driver call: the first argument of `execute` and `query`. -/
def StoreCall.sql : StoreCall → Option String
  | .execute sql => some sql
  | .query sql _ => some sql
  | _ => none

/-- Statement texts issued by a run, in order. -/
def sqlTexts (t : List Effect) : List String :=
  (storeCalls t).filterMap StoreCall.sql

/-- Whether a driver call is `s3.deleteObject`. -/
def StoreCall.isDeleteObject : StoreCall → Bool
  | .deleteObject _ _ => true
  | _ => false

/-- Object key the spec's words give an upload: the caller-supplied `fileName` field
when the body has one, otherwise the original name of the uploaded file. -/
def specObjectKey (body : JsObj) (file : UploadedFile) : JsVal :=
  match body.lookup "fileName" with
  | some fileName => fileName
  | none => .str file.originalname

/-! ## All routes -/

/-- Every route registered on `app`, in source order. -/
inductive Route where
  | mongoProbe
  | usuariosPost
  | usuariosList
  | usuarioGet
  | usuarioPut
  | usuarioDelete
  | bucketsList
  | bucketObjects
  | bucketUpload
  | bucketFileDelete
  | mysqlProbe
  | produtosList
  | produtosPost
  | produtoGet
  | produtoPut
  | produtoDelete

/-- Handler registered for a route. -/
def Route.handler : Route → Env → Request → List Effect
  | .mongoProbe => mongodbTestarConexao
  | .usuariosPost => postUsuarios
  | .usuariosList => getUsuarios
  | .usuarioGet => getUsuarioById
  | .usuarioPut => putUsuario
  | .usuarioDelete => deleteUsuario
  | .bucketsList => getBuckets
  | .bucketObjects => getBucketObjects
  | .bucketUpload => postBucketUpload
  | .bucketFileDelete => deleteBucketFile
  | .mysqlProbe => mysqlTestarConexao
  | .produtosList => getProdutos
  | .produtosPost => postProdutos
  | .produtoGet => getProdutoById
  | .produtoPut => putProduto
  | .produtoDelete => deleteProduto

/-- Whether a response was sent with `res.json`. -/
def Payload.isJson : Payload → Bool
  | .json _ => true
  | .text _ => false

/-- Whether a response body is a JSON object with an `error` property. -/
def Payload.hasErrorField : Payload → Bool
  | .json (.obj fields) => (fields.lookup "error").isSome
  | _ => false

/-- Whether an effect is a call of the audit logger (`logInfo` or `logError`). -/
def Effect.isLog : Effect → Bool
  | .logInfo _ => true
  | .logError _ _ => true
  | _ => false

/-- Number of audit-logger calls of a run. -/
def logCalls (t : List Effect) : Nat :=
  t.countP Effect.isLog

/-- Whether a driver call is `pool.getConnection`. -/
def StoreCall.isGetConnection : StoreCall → Bool
  | .getConnection => true
  | _ => false

/-- Whether a driver call is `connection.release`. -/
def StoreCall.isRelease : StoreCall → Bool
  | .release => true
  | _ => false

/-- Number of connections a run acquires from the pool. -/
def acquired (t : List Effect) : Nat :=
  (storeCalls t).countP StoreCall.isGetConnection

/-- Number of `release` calls of a run. -/
def released (t : List Effect) : Nat :=
  (storeCalls t).countP StoreCall.isRelease

/-! ## Create validation (`POST /usuarios`, `POST /produtos`) -/

theorem truthy_str_of_ne (s : String) (h : s ≠ "") : (JsVal.str s).truthy = true := by
  simp [JsVal.truthy, h]

theorem get_of_lookup_none (o : JsObj) (key : String) (h : o.lookup key = none) :
    o.get key = .undefined := by
  simp [JsObj.get, h]

theorem postUsuarios_rejected (env : Env) (req : Request)
    (h : (req.body.get "nome").truthy = false ∨ (req.body.get "email").truthy = false) :
    postUsuarios env req = [.respond ⟨400, errorBody "Nome e email são obrigatórios"⟩] := by
  unfold postUsuarios
  rcases h with h | h <;> simp [h]

theorem postProdutos_rejected (env : Env) (req : Request)
    (h : (req.body.get "nome").truthy = false ∨ (req.body.get "descricao").truthy = false ∨
      (req.body.get "preco").truthy = false) :
    postProdutos env req =
      [.respond ⟨400, errorBody "Nome, descrição e preço são obrigatórios"⟩] := by
  unfold postProdutos
  rcases h with h | h | h <;> simp [h]

/-- C1: `POST /usuarios` with a body that lacks `nome` or `email`, or carries either as
the empty string, is answered 400 and nothing else happens (no driver call); with both
fields non-empty strings and a successful save it is answered 201 with the saved record,
after exactly one `save` of the supplied values. -/
theorem postUsuarios_validation (env : Env) (req : Request) :
    ((req.body.lookup "nome" = none ∨ req.body.lookup "nome" = some (.str "") ∨
        req.body.lookup "email" = none ∨ req.body.lookup "email" = some (.str "")) →
      responses (postUsuarios env req) = [⟨400, errorBody "Nome e email são obrigatórios"⟩] ∧
      storeCalls (postUsuarios env req) = []) ∧
    (∀ nome email user,
      req.body.lookup "nome" = some (.str nome) → nome ≠ "" →
      req.body.lookup "email" = some (.str email) → email ≠ "" →
      env.userSave (.str nome) (.str email) = .ok user →
      responses (postUsuarios env req) = [⟨201, .json (.obj user)⟩] ∧
      storeCalls (postUsuarios env req) = [.userSave (.str nome) (.str email)]) := by
  constructor
  · intro h
    have hr := postUsuarios_rejected env req (by
      rcases h with h | h | h | h <;> simp [JsObj.get, h, JsVal.truthy])
    simp [hr, responses, storeCalls]
  · intro nome email user hn hn0 he he0 hs
    have h1 : req.body.get "nome" = .str nome := by simp [JsObj.get, hn]
    have h2 : req.body.get "email" = .str email := by simp [JsObj.get, he]
    simp [postUsuarios, h1, h2, truthy_str_of_ne, hn0, he0, hs, responses, storeCalls]

theorem postUsuarios_validation_witness :
    ((jsonRequest [("email", .str "ana@x.com")]).body.lookup "nome" = none ∧
      responses (postUsuarios okEnv (jsonRequest [("email", .str "ana@x.com")])) =
        [⟨400, errorBody "Nome e email são obrigatórios"⟩] ∧
      storeCalls (postUsuarios okEnv (jsonRequest [("email", .str "ana@x.com")])) = []) ∧
    responses (postUsuarios okEnv
        (jsonRequest [("nome", .str "Ana"), ("email", .str "ana@x.com")])) =
      [⟨201, .json (.obj [("_id", .str "u1"), ("nome", .str "Ana"),
        ("email", .str "ana@x.com")])⟩] ∧
    storeCalls (postUsuarios okEnv
        (jsonRequest [("nome", .str "Ana"), ("email", .str "ana@x.com")])) =
      [.userSave (.str "Ana") (.str "ana@x.com")] :=
  ⟨⟨by simp [jsonRequest, List.lookup],
    (postUsuarios_validation okEnv (jsonRequest [("email", .str "ana@x.com")])).1
      (Or.inl (by simp [jsonRequest, List.lookup]))⟩,
   (postUsuarios_validation okEnv
      (jsonRequest [("nome", .str "Ana"), ("email", .str "ana@x.com")])).2
      "Ana" "ana@x.com" _ (by simp [jsonRequest, List.lookup]) (by decide)
      (by simp [jsonRequest, List.lookup]) (by decide) rfl⟩

/-- C2: `POST /produtos` with a body that lacks `nome`, `descricao` or `preco` is
answered 400 and no driver call is made, so no INSERT is issued. -/
theorem postProdutos_missing_field (env : Env) (req : Request)
    (h : req.body.lookup "nome" = none ∨ req.body.lookup "descricao" = none ∨
      req.body.lookup "preco" = none) :
    responses (postProdutos env req) =
      [⟨400, errorBody "Nome, descrição e preço são obrigatórios"⟩] ∧
    storeCalls (postProdutos env req) = [] := by
  have hr := postProdutos_rejected env req (by
    rcases h with h | h | h <;> simp [JsObj.get, h, JsVal.truthy])
  simp [hr, responses, storeCalls]

theorem postProdutos_missing_field_witness :
    (jsonRequest [("nome", .str "Caneta"), ("descricao", .str "Azul")]).body.lookup "preco"
      = none ∧
    responses (postProdutos okEnv
        (jsonRequest [("nome", .str "Caneta"), ("descricao", .str "Azul")])) =
      [⟨400, errorBody "Nome, descrição e preço são obrigatórios"⟩] ∧
    storeCalls (postProdutos okEnv
        (jsonRequest [("nome", .str "Caneta"), ("descricao", .str "Azul")])) = [] :=
  ⟨by simp [jsonRequest, List.lookup],
    postProdutos_missing_field okEnv
      (jsonRequest [("nome", .str "Caneta"), ("descricao", .str "Azul")])
      (Or.inr (Or.inr (by simp [jsonRequest, List.lookup])))⟩

/-- With all three fields truthy and a successful INSERT, `POST /produtos` answers 201
with the generated `insertId` and the three supplied values, after one INSERT whose bound
values are the supplied ones. -/
theorem postProdutos_created (env : Env) (req : Request) (result : ResultSetHeader)
    (hn : (req.body.get "nome").truthy = true) (hd : (req.body.get "descricao").truthy = true)
    (hp : (req.body.get "preco").truthy = true)
    (hq : env.queryHeader "INSERT INTO produto (Nome, Descricao, Preco) VALUES (?, ?, ?)"
      [req.body.get "nome", req.body.get "descricao", req.body.get "preco"] = .ok result) :
    responses (postProdutos env req) =
      [⟨201, .json (.obj [("id", .num (.fin result.insertId)), ("nome", req.body.get "nome"),
        ("descricao", req.body.get "descricao"), ("preco", req.body.get "preco")])⟩] ∧
    storeCalls (postProdutos env req) =
      [.query "INSERT INTO produto (Nome, Descricao, Preco) VALUES (?, ?, ?)"
        [req.body.get "nome", req.body.get "descricao", req.body.get "preco"]] := by
  simp [postProdutos, hn, hd, hp, hq, responses, storeCalls]

/-- C3 fails on the code at a price of zero: with name `Caneta`, description `Azul` and
the numeric price `0`, `POST /produtos` answers 400 and issues no INSERT, whatever the
store would have answered (a successful insert included), because `!preco` holds for
the number `0`. -/
theorem postProdutos_zero_price (env : Env) (params : Params) :
    responses (postProdutos env ⟨params,
        [("nome", .str "Caneta"), ("descricao", .str "Azul"), ("preco", .num (.fin 0))],
        none⟩) =
      [⟨400, errorBody "Nome, descrição e preço são obrigatórios"⟩] ∧
    storeCalls (postProdutos env ⟨params,
        [("nome", .str "Caneta"), ("descricao", .str "Azul"), ("preco", .num (.fin 0))],
        none⟩) = [] := by
  have hr := postProdutos_rejected env ⟨params,
    [("nome", .str "Caneta"), ("descricao", .str "Azul"), ("preco", .num (.fin 0))], none⟩
    (Or.inr (Or.inr (by simp [JsObj.get, List.lookup, JsVal.truthy, JsNum.truthy])))
  simp [hr, responses, storeCalls]

/-! ## Read, update and delete by identifier -/

/-- C4: on each by-identifier route of both resources, when the store reports no
matching record the handler answers 404, when it reports a match the handler answers
200, and in both cases the lookup or write that produced the report is the only driver
call of the run. -/
theorem byId_status (route : ByIdRoute) (env : Env) (req : Request) (found : Bool)
    (h : route.matched env req = some found) :
    statuses (route.handler env req) = [if found then 200 else 404] ∧
    (storeCalls (route.handler env req)).length = 1 := by
  cases route <;> simp only [ByIdRoute.handler, ByIdRoute.matched] at h ⊢
  · unfold getUsuarioById
    cases hx : env.userFindById req.params.id with
    | error e => simp [hx, reported] at h
    | ok r =>
      cases r <;> simp [hx, reported] at h <;> subst h <;>
        simp [statuses, responses, storeCalls]
  · unfold putUsuario
    cases hx : env.userFindByIdAndUpdate req.params.id req.body with
    | error e => simp [hx, reported] at h
    | ok r =>
      cases r <;> simp [hx, reported] at h <;> subst h <;>
        simp [statuses, responses, storeCalls]
  · unfold deleteUsuario
    cases hx : env.userDeleteOne req.params.id with
    | error e => simp [hx, reported] at h
    | ok n =>
      simp only [hx, reported, Option.some.injEq] at h
      subst h
      by_cases hn : n = 0 <;> simp [hn, statuses, responses, storeCalls]
  · unfold getProdutoById
    cases hx : env.queryRows "SELECT * FROM produto WHERE Id = ?" [.str req.params.id] with
    | error e => simp [hx, reported] at h
    | ok rows =>
      simp only [hx, reported, Option.some.injEq] at h
      subst h
      cases rows <;> simp [statuses, responses, storeCalls]
  · unfold putProduto
    cases hx : env.queryHeader
        "UPDATE produto SET Nome = ?, Descricao = ?, Preco = ? WHERE Id = ?"
        [req.body.get "nome", req.body.get "descricao", req.body.get "preco",
          .str req.params.id] with
    | error e => simp [hx, reported] at h
    | ok result =>
      simp only [hx, reported, Option.some.injEq] at h
      subst h
      by_cases hn : result.affectedRows = 0 <;> simp [hx, hn, statuses, responses, storeCalls]
  · unfold deleteProduto
    cases hx : env.queryHeader "DELETE FROM produto WHERE Id = ?" [.str req.params.id] with
    | error e => simp [hx, reported] at h
    | ok result =>
      simp only [hx, reported, Option.some.injEq] at h
      subst h
      by_cases hn : result.affectedRows = 0 <;> simp [hx, hn, statuses, responses, storeCalls]

theorem byId_status_witness :
    (ByIdRoute.matched .usuarioGet okEnv (jsonRequest []) = some false ∧
      statuses (ByIdRoute.handler .usuarioGet okEnv (jsonRequest [])) = [404] ∧
      (storeCalls (ByIdRoute.handler .usuarioGet okEnv (jsonRequest []))).length = 1) ∧
    (ByIdRoute.matched .produtoDelete okEnv (jsonRequest []) = some true ∧
      statuses (ByIdRoute.handler .produtoDelete okEnv (jsonRequest [])) = [200] ∧
      (storeCalls (ByIdRoute.handler .produtoDelete okEnv (jsonRequest []))).length = 1) :=
  ⟨⟨rfl, byId_status .usuarioGet okEnv (jsonRequest []) false rfl⟩,
   ⟨rfl, byId_status .produtoDelete okEnv (jsonRequest []) true rfl⟩⟩

/-! ## Object delete (`DELETE /buckets/:bucketName/file/:fileName`) -/

/-- C5: when the `headObject` probe is rejected with code `NotFound`, the object-delete
handler answers 404 (naming the file and the bucket) and `deleteObject` is invoked zero
times; the probe is the only driver call. -/
theorem deleteBucketFile_not_found (env : Env) (req : Request) (headError : JsError)
    (h : env.headObject req.params.bucketName req.params.fileName = .error headError)
    (hc : headError.code = some "NotFound") :
    responses (deleteBucketFile env req) =
      [⟨404, .json (.obj [("error", .str "Arquivo não encontrado"),
        ("fileName", .str req.params.fileName),
        ("bucketName", .str req.params.bucketName)])⟩] ∧
    (storeCalls (deleteBucketFile env req)).countP StoreCall.isDeleteObject = 0 ∧
    storeCalls (deleteBucketFile env req) =
      [.headObject req.params.bucketName req.params.fileName] := by
  simp [deleteBucketFile, h, hc, responses, storeCalls, StoreCall.isDeleteObject]

theorem deleteBucketFile_not_found_witness :
    (failingEnv ⟨"NotFound", "Not Found", some "NotFound"⟩).headObject
        (jsonRequest []).params.bucketName (jsonRequest []).params.fileName =
      .error ⟨"NotFound", "Not Found", some "NotFound"⟩ ∧
    responses (deleteBucketFile (failingEnv ⟨"NotFound", "Not Found", some "NotFound"⟩)
        (jsonRequest [])) =
      [⟨404, .json (.obj [("error", .str "Arquivo não encontrado"),
        ("fileName", .str "gato.png"), ("bucketName", .str "fotos")])⟩] ∧
    (storeCalls (deleteBucketFile (failingEnv ⟨"NotFound", "Not Found", some "NotFound"⟩)
        (jsonRequest []))).countP StoreCall.isDeleteObject = 0 ∧
    storeCalls (deleteBucketFile (failingEnv ⟨"NotFound", "Not Found", some "NotFound"⟩)
        (jsonRequest [])) = [.headObject "fotos" "gato.png"] :=
  ⟨rfl, deleteBucketFile_not_found (failingEnv ⟨"NotFound", "Not Found", some "NotFound"⟩)
    (jsonRequest []) ⟨"NotFound", "Not Found", some "NotFound"⟩ rfl rfl⟩

/-- C6: when the `headObject` probe is rejected with any code other than `NotFound` (or
with none), the object-delete handler answers 500 with the error's message in `details`
and never invokes `deleteObject`; when the probe succeeds and `deleteObject` is
rejected, whatever the error's code (`NotFound` included), it answers 500 with that
error's message in `details`. -/
theorem deleteBucketFile_store_error (env : Env) (req : Request) (error : JsError) :
    (env.headObject req.params.bucketName req.params.fileName = .error error →
      error.code ≠ some "NotFound" →
      responses (deleteBucketFile env req) =
        [⟨500, .json (.obj [("error", .str "Erro ao deletar arquivo"),
          ("details", .str error.message)])⟩] ∧
      (storeCalls (deleteBucketFile env req)).countP StoreCall.isDeleteObject = 0) ∧
    (env.headObject req.params.bucketName req.params.fileName = .ok () →
      env.deleteObject req.params.bucketName req.params.fileName = .error error →
      responses (deleteBucketFile env req) =
        [⟨500, .json (.obj [("error", .str "Erro ao deletar arquivo"),
          ("details", .str error.message)])⟩]) := by
  constructor
  · intro h hc
    simp [deleteBucketFile, h, hc, responses, storeCalls, StoreCall.isDeleteObject,
      errorDetailsBody]
  · intro h hd
    simp [deleteBucketFile, h, hd, responses, errorDetailsBody]

theorem deleteBucketFile_store_error_witness :
    ((failingEnv ⟨"AccessDenied", "Access Denied", some "AccessDenied"⟩).headObject
          "fotos" "gato.png" = .error ⟨"AccessDenied", "Access Denied", some "AccessDenied"⟩ ∧
      responses (deleteBucketFile
          (failingEnv ⟨"AccessDenied", "Access Denied", some "AccessDenied"⟩)
          (jsonRequest [])) =
        [⟨500, .json (.obj [("error", .str "Erro ao deletar arquivo"),
          ("details", .str "Access Denied")])⟩] ∧
      (storeCalls (deleteBucketFile
          (failingEnv ⟨"AccessDenied", "Access Denied", some "AccessDenied"⟩)
          (jsonRequest []))).countP StoreCall.isDeleteObject = 0) ∧
    responses (deleteBucketFile
        { okEnv with deleteObject := fun _ _ => .error ⟨"NotFound", "gone", some "NotFound"⟩ }
        (jsonRequest [])) =
      [⟨500, .json (.obj [("error", .str "Erro ao deletar arquivo"),
        ("details", .str "gone")])⟩] :=
  ⟨⟨rfl, (deleteBucketFile_store_error
      (failingEnv ⟨"AccessDenied", "Access Denied", some "AccessDenied"⟩) (jsonRequest [])
      ⟨"AccessDenied", "Access Denied", some "AccessDenied"⟩).1 rfl (by decide)⟩,
   (deleteBucketFile_store_error
      { okEnv with deleteObject := fun _ _ => .error ⟨"NotFound", "gone", some "NotFound"⟩ }
      (jsonRequest []) ⟨"NotFound", "gone", some "NotFound"⟩).2 rfl rfl⟩

/-! ## Upload (`POST /buckets/:bucketName/upload`) -/

/-- C7 as stated fails: a request whose `fileName` field is present but empty is not
stored under that field's value; the key falls back to the original name of the file. -/
theorem postBucketUpload_empty_fileName :
    specObjectKey [("fileName", .str "")] ⟨"gato.png", [137, 80], "image/png"⟩ = .str "" ∧
    storeCalls (postBucketUpload okEnv
        ⟨sampleParams, [("fileName", .str "")], some ⟨"gato.png", [137, 80], "image/png"⟩⟩) =
      [.upload "fotos" (.str "gato.png") [137, 80] "image/png"] ∧
    storeCalls (postBucketUpload okEnv
        ⟨sampleParams, [("fileName", .str "")], some ⟨"gato.png", [137, 80], "image/png"⟩⟩) ≠
      [.upload "fotos"
        (specObjectKey [("fileName", .str "")] ⟨"gato.png", [137, 80], "image/png"⟩)
        [137, 80] "image/png"] := by
  refine ⟨rfl, rfl, ?_⟩
  simp [postBucketUpload, okEnv, sampleParams, JsObj.get, List.lookup, JsVal.or,
    JsVal.truthy, storeCalls, specObjectKey]

/-- C7, amended: a request without a file is answered 400 with no driver call.  For a
request with a file the key passed to `s3.upload` is `req.body.fileName || originalname`:
a `fileName` field that is a non-empty string is the key, verbatim; when the field is
absent or the empty string the key is the original name of the uploaded file, verbatim.
The upload is the only driver call, and when it succeeds the 200 response carries that
key as `fileName` and the store's `Location` as `location`. -/
theorem postBucketUpload_key (env : Env) (req : Request) :
    (req.file = none →
      responses (postBucketUpload env req) = [⟨400, errorBody "Nenhum arquivo fornecido"⟩] ∧
      storeCalls (postBucketUpload env req) = []) ∧
    (∀ file, req.file = some file →
      (∀ name, req.body.lookup "fileName" = some (.str name) → name ≠ "" →
        (req.body.get "fileName").or (.str file.originalname) = .str name) ∧
      (req.body.lookup "fileName" = none ∨ req.body.lookup "fileName" = some (.str "") →
        (req.body.get "fileName").or (.str file.originalname) = .str file.originalname) ∧
      storeCalls (postBucketUpload env req) =
        [.upload req.params.bucketName
          ((req.body.get "fileName").or (.str file.originalname)) file.buffer file.mimetype] ∧
      (∀ data,
        env.upload req.params.bucketName
          ((req.body.get "fileName").or (.str file.originalname)) file.buffer file.mimetype
          = .ok data →
        responses (postBucketUpload env req) =
          [⟨200, .json (.obj [("message", .str "Arquivo enviado com sucesso"),
            ("fileName", (req.body.get "fileName").or (.str file.originalname)),
            ("location", .str data.Location), ("etag", .str data.ETag)])⟩])) := by
  constructor
  · intro h
    simp [postBucketUpload, h, responses, storeCalls]
  · intro file h
    refine ⟨?_, ?_, ?_, ?_⟩
    · intro name hl hne
      simp [JsObj.get, hl, JsVal.or, JsVal.truthy, hne]
    · intro hl
      rcases hl with hl | hl <;> simp [JsObj.get, hl, JsVal.or, JsVal.truthy]
    · simp only [postBucketUpload, h]
      cases env.upload req.params.bucketName
        ((req.body.get "fileName").or (.str file.originalname)) file.buffer file.mimetype <;>
        simp [storeCalls]
    · intro data hd
      simp [postBucketUpload, h, hd, responses]

theorem postBucketUpload_key_witness :
    ((jsonRequest []).file = none ∧
      responses (postBucketUpload okEnv (jsonRequest [])) =
        [⟨400, errorBody "Nenhum arquivo fornecido"⟩] ∧
      storeCalls (postBucketUpload okEnv (jsonRequest [])) = []) ∧
    storeCalls (postBucketUpload okEnv
        ⟨sampleParams, [("fileName", .str "a/../b.png")],
          some ⟨"gato.png", [137, 80], "image/png"⟩⟩) =
      [.upload "fotos" (.str "a/../b.png") [137, 80] "image/png"] ∧
    responses (postBucketUpload okEnv
        ⟨sampleParams, [("fileName", .str "a/../b.png")],
          some ⟨"gato.png", [137, 80], "image/png"⟩⟩) =
      [⟨200, .json (.obj [("message", .str "Arquivo enviado com sucesso"),
        ("fileName", .str "a/../b.png"),
        ("location", .str "https://s3.example/fotos"), ("etag", .str "etag-1")])⟩] :=
  ⟨⟨rfl, (postBucketUpload_key okEnv (jsonRequest [])).1 rfl⟩,
   ((postBucketUpload_key okEnv
      ⟨sampleParams, [("fileName", .str "a/../b.png")],
        some ⟨"gato.png", [137, 80], "image/png"⟩⟩).2 _ rfl).2.2.1,
   ((postBucketUpload_key okEnv
      ⟨sampleParams, [("fileName", .str "a/../b.png")],
        some ⟨"gato.png", [137, 80], "image/png"⟩⟩).2 _ rfl).2.2.2 _ rfl⟩

/-! ## Store failures on the `User` routes -/

/-- C8: on each of the five `User` routes, whenever the store rejects the driver call
of that route with an error (for `create`, on a request that passes the field check, the
only ones for which a call is made), the handler makes that call and answers 500 with a
JSON body made of an `error` field (the route's text) and a `message` field equal to the
error's message. -/
theorem user_store_failure (route : UserRoute) (env : Env) (req : Request) (error : JsError)
    (hv : route = .create →
      (req.body.get "nome").truthy = true ∧ (req.body.get "email").truthy = true)
    (he : env.userCallError (route.call req) = some error) :
    storeCalls (route.handler env req) = [route.call req] ∧
    responses (route.handler env req) =
      [⟨500, .json (.obj [("error", .str route.errorText),
        ("message", .str error.message)])⟩] := by
  cases route <;>
    simp only [UserRoute.handler, UserRoute.errorText, UserRoute.call, Env.userCallError]
      at he ⊢
  · obtain ⟨hn, hm⟩ := hv rfl
    cases hx : env.userSave (req.body.get "nome") (req.body.get "email") with
    | ok user => simp [hx, errorOf] at he
    | error e =>
      simp only [hx, errorOf, Option.some.injEq] at he
      subst he
      simp [postUsuarios, hn, hm, hx, storeCalls, responses, errorMessageBody]
  · cases hx : env.userFind with
    | ok users => simp [hx, errorOf] at he
    | error e =>
      simp only [hx, errorOf, Option.some.injEq] at he
      subst he
      simp [getUsuarios, hx, storeCalls, responses, errorMessageBody]
  · cases hx : env.userFindById req.params.id with
    | ok user => simp [hx, errorOf] at he
    | error e =>
      simp only [hx, errorOf, Option.some.injEq] at he
      subst he
      simp [getUsuarioById, hx, storeCalls, responses, errorMessageBody]
  · cases hx : env.userFindByIdAndUpdate req.params.id req.body with
    | ok user => simp [hx, errorOf] at he
    | error e =>
      simp only [hx, errorOf, Option.some.injEq] at he
      subst he
      simp [putUsuario, hx, storeCalls, responses, errorMessageBody]
  · cases hx : env.userDeleteOne req.params.id with
    | ok n => simp [hx, errorOf] at he
    | error e =>
      simp only [hx, errorOf, Option.some.injEq] at he
      subst he
      simp [deleteUsuario, hx, storeCalls, responses, errorMessageBody]

theorem user_store_failure_witness :
    (((jsonRequest [("nome", .str "Ana"), ("email", .str "ana@x.com")]).body.get "nome").truthy
        = true ∧
      ((jsonRequest [("nome", .str "Ana"), ("email", .str "ana@x.com")]).body.get
        "email").truthy = true ∧
      (failingEnv ⟨"MongoNetworkError", "connection timed out", none⟩).userCallError
          (UserRoute.call .create
            (jsonRequest [("nome", .str "Ana"), ("email", .str "ana@x.com")])) =
        some ⟨"MongoNetworkError", "connection timed out", none⟩) ∧
    storeCalls (UserRoute.handler .create
        (failingEnv ⟨"MongoNetworkError", "connection timed out", none⟩)
        (jsonRequest [("nome", .str "Ana"), ("email", .str "ana@x.com")])) =
      [.userSave (.str "Ana") (.str "ana@x.com")] ∧
    responses (UserRoute.handler .create
        (failingEnv ⟨"MongoNetworkError", "connection timed out", none⟩)
        (jsonRequest [("nome", .str "Ana"), ("email", .str "ana@x.com")])) =
      [⟨500, .json (.obj [("error", .str "Erro ao criar usuário"),
        ("message", .str "connection timed out")])⟩] :=
  ⟨⟨rfl, rfl, rfl⟩,
   user_store_failure .create (failingEnv ⟨"MongoNetworkError", "connection timed out", none⟩)
    (jsonRequest [("nome", .str "Ana"), ("email", .str "ana@x.com")])
    ⟨"MongoNetworkError", "connection timed out", none⟩ (fun _ => ⟨rfl, rfl⟩) rfl⟩

/-! ## Product update and the SQL statement texts -/

/-- C9: `PUT /produtos/:id` validates nothing and replaces all three columns: for every
body its only driver call is the UPDATE that sets `Nome`, `Descricao` and `Preco` (the
`Id` column occurs only in the WHERE clause) with the bound values `nome`, `descricao`
and `preco` read from the body followed by the path id; a field the body lacks is bound
as `undefined`, and no row is read beforehand from which it could be retained; when a
row is affected the 200 response carries the path id and the three bound values. -/
theorem putProduto_full_replace (env : Env) (req : Request) :
    storeCalls (putProduto env req) =
      [.query "UPDATE produto SET Nome = ?, Descricao = ?, Preco = ? WHERE Id = ?"
        [req.body.get "nome", req.body.get "descricao", req.body.get "preco",
          .str req.params.id]] ∧
    (∀ key, req.body.lookup key = none → req.body.get key = .undefined) ∧
    (∀ result,
      env.queryHeader "UPDATE produto SET Nome = ?, Descricao = ?, Preco = ? WHERE Id = ?"
        [req.body.get "nome", req.body.get "descricao", req.body.get "preco",
          .str req.params.id] = .ok result →
      result.affectedRows ≠ 0 →
      responses (putProduto env req) =
        [⟨200, .json (.obj [("id", .str req.params.id), ("nome", req.body.get "nome"),
          ("descricao", req.body.get "descricao"), ("preco", req.body.get "preco")])⟩]) := by
  refine ⟨?_, fun key h => get_of_lookup_none req.body key h, ?_⟩
  · unfold putProduto
    cases hx : env.queryHeader
        "UPDATE produto SET Nome = ?, Descricao = ?, Preco = ? WHERE Id = ?"
        [req.body.get "nome", req.body.get "descricao", req.body.get "preco",
          .str req.params.id] with
    | error e => simp [hx, storeCalls]
    | ok result => by_cases hn : result.affectedRows = 0 <;> simp [hx, hn, storeCalls]
  · intro result hx hn
    simp [putProduto, hx, hn, responses]

theorem putProduto_full_replace_witness :
    (jsonRequest [("preco", .num (.fin 3))]).body.lookup "nome" = none ∧
    storeCalls (putProduto okEnv (jsonRequest [("preco", .num (.fin 3))])) =
      [.query "UPDATE produto SET Nome = ?, Descricao = ?, Preco = ? WHERE Id = ?"
        [.undefined, .undefined, .num (.fin 3), .str "42"]] ∧
    responses (putProduto okEnv (jsonRequest [("preco", .num (.fin 3))])) =
      [⟨200, .json (.obj [("id", .str "42"), ("nome", .undefined),
        ("descricao", .undefined), ("preco", .num (.fin 3))])⟩] :=
  ⟨rfl, (putProduto_full_replace okEnv (jsonRequest [("preco", .num (.fin 3))])).1,
    (putProduto_full_replace okEnv (jsonRequest [("preco", .num (.fin 3))])).2.2
      ⟨7, 1⟩ rfl (by decide)⟩

theorem sqlTexts_cases (route : SqlRoute) (env : Env) (req : Request) :
    sqlTexts (route.handler env req) = [route.statement] ∨
    sqlTexts (route.handler env req) = [] := by
  cases route <;> simp only [SqlRoute.handler, SqlRoute.statement]
  · unfold mysqlTestarConexao
    cases env.getConnection with
    | error e => simp [sqlTexts, storeCalls, StoreCall.sql]
    | ok u =>
      cases env.execute "SELECT 1 as test" <;> simp [sqlTexts, storeCalls, StoreCall.sql]
  · unfold getProdutos
    cases env.queryRows "SELECT * FROM produto" [] <;>
      simp [sqlTexts, storeCalls, StoreCall.sql]
  · unfold postProdutos
    by_cases hv : (!(req.body.get "nome").truthy || !(req.body.get "descricao").truthy ||
        !(req.body.get "preco").truthy) = true
    · simp [hv, sqlTexts, storeCalls]
    · cases hx : env.queryHeader
          "INSERT INTO produto (Nome, Descricao, Preco) VALUES (?, ?, ?)"
          [req.body.get "nome", req.body.get "descricao", req.body.get "preco"] <;>
        simp [hv, hx, sqlTexts, storeCalls, StoreCall.sql]
  · unfold getProdutoById
    cases env.queryRows "SELECT * FROM produto WHERE Id = ?" [.str req.params.id] with
    | error e => simp [sqlTexts, storeCalls, StoreCall.sql]
    | ok rows => cases rows <;> simp [sqlTexts, storeCalls, StoreCall.sql]
  · unfold putProduto
    cases hx : env.queryHeader
        "UPDATE produto SET Nome = ?, Descricao = ?, Preco = ? WHERE Id = ?"
        [req.body.get "nome", req.body.get "descricao", req.body.get "preco",
          .str req.params.id] with
    | error e => simp [hx, sqlTexts, storeCalls, StoreCall.sql]
    | ok result =>
      by_cases hn : result.affectedRows = 0 <;>
        simp [hx, hn, sqlTexts, storeCalls, StoreCall.sql]
  · unfold deleteProduto
    cases env.queryHeader "DELETE FROM produto WHERE Id = ?" [.str req.params.id] with
    | error e => simp [sqlTexts, storeCalls, StoreCall.sql]
    | ok result =>
      by_cases hn : result.affectedRows = 0 <;>
        simp [hn, sqlTexts, storeCalls, StoreCall.sql]

/-- C10: every statement text issued by the relational health probe and by the five
`produto` handlers is the constant written in that route's source, whatever the request
and the store outcomes; hence any two requests to one route issue identical statement
texts, and the request's values (body fields, path id) can reach the store only through
the bound-value list. -/
theorem sql_text_constant (route : SqlRoute) (env : Env) (req : Request) :
    (sqlTexts (route.handler env req) = [route.statement] ∨
      sqlTexts (route.handler env req) = []) ∧
    (∀ (env2 : Env) (req2 : Request) (s1 s2 : String),
      s1 ∈ sqlTexts (route.handler env req) → s2 ∈ sqlTexts (route.handler env2 req2) →
      s1 = s2) := by
  refine ⟨sqlTexts_cases route env req, ?_⟩
  intro env2 req2 s1 s2 h1 h2
  rcases sqlTexts_cases route env req with h | h <;>
    rcases sqlTexts_cases route env2 req2 with k | k <;>
    simp [h, k] at h1 h2
  rw [h1, h2]

theorem sql_text_constant_witness :
    ("INSERT INTO produto (Nome, Descricao, Preco) VALUES (?, ?, ?)" ∈
        sqlTexts (SqlRoute.handler .create okEnv
          (jsonRequest [("nome", .str "Caneta"), ("descricao", .str "Azul"),
            ("preco", .num (.fin (5 / 2)))])) ∧
      "INSERT INTO produto (Nome, Descricao, Preco) VALUES (?, ?, ?)" ∈
        sqlTexts (SqlRoute.handler .create (failingEnv ⟨"Error", "down", none⟩)
          (jsonRequest [("nome", .str "x); DROP TABLE produto;"),
            ("descricao", .str "Azul"), ("preco", .num (.fin 1))]))) ∧
    "INSERT INTO produto (Nome, Descricao, Preco) VALUES (?, ?, ?)" =
      "INSERT INTO produto (Nome, Descricao, Preco) VALUES (?, ?, ?)" :=
  have h1 : "INSERT INTO produto (Nome, Descricao, Preco) VALUES (?, ?, ?)" ∈
      sqlTexts (SqlRoute.handler .create okEnv
        (jsonRequest [("nome", .str "Caneta"), ("descricao", .str "Azul"),
          ("preco", .num (.fin (5 / 2)))])) := by
    simp [SqlRoute.handler, postProdutos, okEnv, jsonRequest, JsObj.get, List.lookup,
      JsVal.truthy, JsNum.truthy, sqlTexts, storeCalls, StoreCall.sql]
  have h2 : "INSERT INTO produto (Nome, Descricao, Preco) VALUES (?, ?, ?)" ∈
      sqlTexts (SqlRoute.handler .create (failingEnv ⟨"Error", "down", none⟩)
        (jsonRequest [("nome", .str "x); DROP TABLE produto;"),
          ("descricao", .str "Azul"), ("preco", .num (.fin 1))])) := by
    simp [SqlRoute.handler, postProdutos, failingEnv, jsonRequest, JsObj.get, List.lookup,
      JsVal.truthy, JsNum.truthy, sqlTexts, storeCalls, StoreCall.sql]
  ⟨⟨h1, h2⟩, (sql_text_constant .create okEnv
    (jsonRequest [("nome", .str "Caneta"), ("descricao", .str "Azul"),
      ("preco", .num (.fin (5 / 2)))])).2 (failingEnv ⟨"Error", "down", none⟩)
    (jsonRequest [("nome", .str "x); DROP TABLE produto;"),
      ("descricao", .str "Azul"), ("preco", .num (.fin 1))]) _ _ h1 h2⟩

/-! ## Response format, audit logging, connection release, one response per request -/

/-- C11 as stated fails: the 200 response of the document-store health probe is sent
with `res.send` and a plain string, not as a JSON body. -/
theorem mongoProbe_text_response :
    responses (Route.handler .mongoProbe okEnv (jsonRequest [])) =
      [⟨200, .text "Conexão com o MongoDB bem-sucedida, mas nenhum usuário encontrado."⟩] ∧
    (Payload.text
      "Conexão com o MongoDB bem-sucedida, mas nenhum usuário encontrado.").isJson = false :=
  ⟨rfl, rfl⟩

/-- C11, amended: every response of every route is sent with `res.json`, the 200
responses of the document-store health probe excepted (and only they are not); every
response with status 400, 404 or 500, on every route including both health probes, is a
JSON object with an `error` field. -/
theorem response_format (route : Route) (env : Env) (req : Request) (r : Response)
    (h : r ∈ responses (route.handler env req)) :
    (r.payload.isJson = false ↔ route = .mongoProbe ∧ r.status = 200) ∧
    (r.status = 400 ∨ r.status = 404 ∨ r.status = 500 → r.payload.hasErrorField = true) := by
  cases route <;>
    simp only [Route.handler, mongodbTestarConexao, postUsuarios, getUsuarios, getUsuarioById,
      putUsuario, deleteUsuario, getBuckets, getBucketObjects, postBucketUpload,
      deleteBucketFile, mysqlTestarConexao, getProdutos, postProdutos, getProdutoById,
      putProduto, deleteProduto] at h <;>
    (repeat' split at h) <;>
    simp [responses] at h <;>
    subst h <;>
    simp [Payload.isJson, Payload.hasErrorField, errorBody, errorMessageBody,
      errorDetailsBody, List.lookup]

theorem response_format_witness :
    (⟨500, errorMessageBody "Erro na conexão MySQL" ⟨"Error", "down", none⟩⟩ : Response) ∈
      responses (Route.handler .mysqlProbe (failingEnv ⟨"Error", "down", none⟩)
        (jsonRequest [])) ∧
    (errorMessageBody "Erro na conexão MySQL" ⟨"Error", "down", none⟩).hasErrorField = true :=
  have h : (⟨500, errorMessageBody "Erro na conexão MySQL" ⟨"Error", "down", none⟩⟩ :
      Response) ∈ responses (Route.handler .mysqlProbe (failingEnv ⟨"Error", "down", none⟩)
        (jsonRequest [])) := by
    simp [Route.handler, mysqlTestarConexao, failingEnv, responses]
  ⟨h, (response_format .mysqlProbe (failingEnv ⟨"Error", "down", none⟩) (jsonRequest [])
    ⟨500, errorMessageBody "Erro na conexão MySQL" ⟨"Error", "down", none⟩⟩ h).2
    (Or.inr (Or.inr rfl))⟩

/-- C12 as stated fails: a `POST /usuarios` without fields is answered 400, and a
`GET /usuarios/:id` that finds nothing is answered 404, without any call of the audit
logger. -/
theorem no_log_on_400_404 :
    (statuses (Route.handler .usuariosPost okEnv (jsonRequest [])) = [400] ∧
      logCalls (Route.handler .usuariosPost okEnv (jsonRequest [])) = 0) ∧
    (statuses (Route.handler .usuarioGet okEnv (jsonRequest [])) = [404] ∧
      logCalls (Route.handler .usuarioGet okEnv (jsonRequest [])) = 0) :=
  ⟨⟨rfl, rfl⟩, ⟨rfl, rfl⟩⟩

/-- C12, amended: every run of every handler either ends in a success response (200 or
201) or in a store failure (500) and calls the audit logger exactly once, or ends in a
validation failure (400) or a not-found answer (404) and calls the logger not at all. -/
theorem log_calls (route : Route) (env : Env) (req : Request) :
    ((statuses (route.handler env req) = [200] ∨ statuses (route.handler env req) = [201] ∨
        statuses (route.handler env req) = [500]) ∧
      logCalls (route.handler env req) = 1) ∨
    ((statuses (route.handler env req) = [400] ∨ statuses (route.handler env req) = [404]) ∧
      logCalls (route.handler env req) = 0) := by
  cases route <;>
    simp only [Route.handler, mongodbTestarConexao, postUsuarios, getUsuarios, getUsuarioById,
      putUsuario, deleteUsuario, getBuckets, getBucketObjects, postBucketUpload,
      deleteBucketFile, mysqlTestarConexao, getProdutos, postProdutos, getProdutoById,
      putProduto, deleteProduto] <;>
    (repeat' split) <;>
    simp [statuses, responses, logCalls, Effect.isLog]

/-- The startup diagnostic releases the connection it acquired exactly once, and
releases nothing when no connection could be acquired. -/
theorem testMySQLConnection_release (env : Env) :
    acquired (testMySQLConnection env) = 1 ∧
    released (testMySQLConnection env) = if (errorOf env.getConnection).isSome then 0 else 1 := by
  unfold testMySQLConnection
  cases env.getConnection <;>
    simp [acquired, released, storeCalls, StoreCall.isGetConnection, StoreCall.isRelease,
      errorOf]

/-- When the SELECT of the relational health probe succeeds, the acquired connection is
released exactly once. -/
theorem mysqlTestarConexao_release_ok (env : Env) (req : Request) (rows : List JsVal)
    (hc : env.getConnection = .ok ()) (hx : env.execute "SELECT 1 as test" = .ok rows) :
    acquired (mysqlTestarConexao env req) = 1 ∧ released (mysqlTestarConexao env req) = 1 := by
  simp [mysqlTestarConexao, hc, hx, acquired, released, storeCalls,
    StoreCall.isGetConnection, StoreCall.isRelease]

/-- C13 fails on the code in the relational health probe: when the connection is
acquired and the SELECT is rejected, the handler answers 500 and `release` is never
called on the acquired connection. -/
theorem mysqlTestarConexao_leak :
    storeCalls (mysqlTestarConexao
        { okEnv with execute := fun _ => .error ⟨"Error", "Query failed", none⟩ }
        (jsonRequest [])) = [.getConnection, .execute "SELECT 1 as test"] ∧
    acquired (mysqlTestarConexao
        { okEnv with execute := fun _ => .error ⟨"Error", "Query failed", none⟩ }
        (jsonRequest [])) = 1 ∧
    released (mysqlTestarConexao
        { okEnv with execute := fun _ => .error ⟨"Error", "Query failed", none⟩ }
        (jsonRequest [])) = 0 ∧
    statuses (mysqlTestarConexao
        { okEnv with execute := fun _ => .error ⟨"Error", "Query failed", none⟩ }
        (jsonRequest [])) = [500] :=
  ⟨rfl, rfl, rfl, rfl⟩

/-- C14: for every route, request and outcome of the driver calls, the handler sends
exactly one response, and that response is the last effect of the run: no path ends
without a response and none responds twice. -/
theorem one_response (route : Route) (env : Env) (req : Request) :
    ∃ r, responses (route.handler env req) = [r] ∧
      (route.handler env req).getLast? = some (.respond r) := by
  cases route <;>
    simp only [Route.handler, mongodbTestarConexao, postUsuarios, getUsuarios, getUsuarioById,
      putUsuario, deleteUsuario, getBuckets, getBucketObjects, postBucketUpload,
      deleteBucketFile, mysqlTestarConexao, getProdutos, postProdutos, getProdutoById,
      putProduto, deleteProduto] <;>
    (repeat' split) <;>
    simp [responses]

end ApiAws
